import Mathlib

/-!
Verification of the `dm` engine bootstrap (src/dm/engine.py, src/main.py).

The development shallowly embeds the configuration-driven initialization
lifecycle of `Engine`: construction-time validation of the `enable_logger`
flag, the ensure-directory / ensure-file / seed-or-parse bootstrap of the
configuration file, logger activation, and the interrupt-driven
shutdown-confirmation loop.

The filesystem is modelled as an association list from paths to parsed
configuration documents (an INI document is a list of sections, each a list
of key/value pairs), together with a set of created directories.  Every
filesystem-touching operation also records an `IOOp` in a trace, so that
frame claims ("no file I/O occurs") are statements about the trace.

Helpers that live outside `src/` (`dm_constants`, `utility.base_util`,
`utility.constants_util`) are modelled from the spec; each such definition
carries a doc comment starting with `Modelled from the spec:`.
-/

namespace DM

/-! ## Constants (src/dm/dm_constants.py is not under src/; values from spec section 6) -/

/-- Modelled from the spec: dm_constants.LOGGER_SECTION, the "logger" section name. -/
def LOGGER_SECTION : String := "logger"

/-- Modelled from the spec: dm_constants.ENGINE_SECTION, the "engine" section name. -/
def ENGINE_SECTION : String := "engine"

/-- Modelled from the spec: dm_constants.LOGFILE_OPTION, key for the base log file name. -/
def LOGFILE_OPTION : String := "log_file"

/-- Modelled from the spec: dm_constants.LOGDIR_OPTION, key for the log directory. -/
def LOGDIR_OPTION : String := "log_dir"

/-- Modelled from the spec: dm_constants.LOGTOFILE_OPTION, key for the write-to-file sink. -/
def LOGTOFILE_OPTION : String := "log_to_file"

/-- Modelled from the spec: dm_constants.LOGTOSTDIO_OPTION, key for the write-to-stdio sink. -/
def LOGTOSTDIO_OPTION : String := "log_to_stdio"

/-- Modelled from the spec: dm_constants.ENABLE_DEBUG_OPTION, the legacy debug key. -/
def ENABLE_DEBUG_OPTION : String := "enable_debug"

/-- Modelled from the spec: dm_constants.ENABLE, the literal enabling value. -/
def ENABLE : String := "enable"

/-- Modelled from the spec: dm_constants.DISABLE, the literal disabling value. -/
def DISABLE : String := "disable"

/-- Modelled from the spec: dm_constants.LOGFILE_VALUE, default base log file name. -/
def LOGFILE_VALUE : String := "engine"

/-- Modelled from the spec: dm_constants.LOGDIR_VALUE, default log directory. -/
def LOGDIR_VALUE : String := "./logs"

/-- Modelled from the spec: dm_constants.LOGTOFILE_VALUE, default for log_to_file. -/
def LOGTOFILE_VALUE : String := DISABLE

/-- Modelled from the spec: dm_constants.LOGTOSTDIO_VALUE, default for log_to_stdio. -/
def LOGTOSTDIO_VALUE : String := DISABLE

/-- Modelled from the spec: dm_constants.ENABLE_DEBUG_VALUE, default for enable_debug. -/
def ENABLE_DEBUG_VALUE : String := DISABLE

/-- Python logging.DEBUG numeric level. -/
def DEBUG : Nat := 10

/-- os.sep on the POSIX platform the program runs on. -/
def sep : Char := '/'

/-- Modelled from the spec: utility.constants_util.ERR_TYPE, the printable
wrong-type message template; its exact text is not under src/. -/
def ERR_TYPE_fmt (what ty : String) : String := what ++ " must be of type " ++ ty

/-- Modelled from the spec: utility.constants_util.ERR_VALUE, the printable
missing-value message template; its exact text is not under src/. -/
def ERR_VALUE_fmt (ty : String) : String := ty ++ " value expected"

/-! ## Python dynamic values and errors -/

/-- Dynamically typed Python value, as far as the enable_logger argument is
concerned: a bool, None, a string, or an int. -/
inductive PyVal
  | pyBool (b : Bool)
  | pyNone
  | pyStr (s : String)
  | pyInt (n : Int)
deriving DecidableEq, Repr

/-- Python isinstance(v, bool). Note that isinstance(None, bool) is False. -/
def PyVal.isBool : PyVal → Bool
  | .pyBool _ => true
  | _ => false

/-- The boolean carried by a PyVal known to be a bool (unused otherwise). -/
def PyVal.asBool : PyVal → Bool
  | .pyBool b => b
  | _ => false

/-- Exceptions the constructor can raise: the two custom construction errors
from dm.dm_exception, plus Python KeyError escaping from config parsing. -/
inductive DMError
  | enableLoggerTypeError (msg : String)
  | enableLoggerValueError (msg : String)
  | keyError (key : String)
deriving DecidableEq, Repr

/-! ## INI documents (configparser state, abstracted) -/

/-- One INI section: an ordered association list of keys to string values. -/
abbrev ConfSection := List (String × String)

/-- A parsed INI document: an ordered association list of section names to
sections; this is the abstract state of a ConfigParser. -/
abbrev Doc := List (String × ConfSection)

/-- Lookup in an ordered association list. -/
def assocGet {α : Type} : List (String × α) → String → Option α
  | [], _ => none
  | (k1, v) :: rest, k => if k1 = k then some v else assocGet rest k

/-- Update-or-append in an ordered association list, mirroring dict item
assignment in ConfigParser (existing entry replaced in place, new entry
appended at the end). -/
def assocSet {α : Type} : List (String × α) → String → α → List (String × α)
  | [], k, v => [(k, v)]
  | (k1, v1) :: rest, k, v =>
      if k1 = k then (k, v) :: rest else (k1, v1) :: assocSet rest k v

/-- Value of cparser[s][k], when both the section and the key exist. -/
def docGet (d : Doc) (s k : String) : Option String :=
  (assocGet d s).bind (fun sec => assocGet sec k)

/-- Effect of cparser[s][k] = v on the document (the section must normally
exist; a missing section is treated as empty, as the code only assigns keys
into sections it has just created). -/
def docSetKey (d : Doc) (s k v : String) : Doc :=
  assocSet d s (assocSet ((assocGet d s).getD []) k v)

/-- Serialization of one section body, one "key = value" line per entry,
as ConfigParser.write produces. -/
def serializeKeys : ConfSection → String
  | [] => ""
  | (k, v) :: rest => k ++ " = " ++ v ++ "\n" ++ serializeKeys rest

/-- Serialization of one section: header line, body, blank separator line. -/
def serializeSection (name : String) (sec : ConfSection) : String :=
  "[" ++ name ++ "]\n" ++ serializeKeys sec ++ "\n"

/-- Serialization of a whole document, the on-disk byte content of the
config file. The empty document serializes to the empty string. -/
def serializeDoc : Doc → String
  | [] => ""
  | (n, sec) :: rest => serializeSection n sec ++ serializeDoc rest

/-! ## Filesystem model and I/O trace -/

/-- One observable file-system operation. -/
inductive IOOp
  | createDir (d : Option String)
  | createFile (p : String)
  | statFile (p : String)
  | readFile (p : String)
  | writeFile (p : String) (content : Doc)
deriving DecidableEq, Repr

/-- Whether an operation writes a file (the defaults-seeding write is the
only writer in the program). -/
def IOOp.is_write : IOOp → Bool
  | .writeFile _ _ => true
  | _ => false

/-- The file system: which directories have been created, and the content of
each existing file (stored as its parsed document; a file of size zero is
exactly a file whose document is empty). -/
structure FS where
  dirs : List String
  files : List (String × Doc)
deriving DecidableEq, Repr

/-- Content of the file at a path, if it exists. -/
def FS.lookupFile (fs : FS) (p : String) : Option Doc :=
  assocGet fs.files p

/-- Modelled from the spec: utility.base_util.create_dir, an idempotent
directory-creation helper (not under src/). It records its argument in the
trace; the argument is an Option because Engine.set_logger passes the
engineconf.log_fpath field, which may be unset. -/
def FS.create_dir (fs : FS) (d : Option String) : FS × IOOp :=
  (match d with
   | some dir => if fs.dirs.contains dir then fs else { fs with dirs := dir :: fs.dirs }
   | none => fs,
   IOOp.createDir d)

/-- Modelled from the spec: utility.base_util.create_file, an idempotent
file-creation helper (not under src/): creates an empty file when the path
does not exist, leaves existing content untouched. -/
def FS.create_file (fs : FS) (p : String) : FS × IOOp :=
  (if (fs.lookupFile p).isSome then fs
   else { fs with files := assocSet fs.files p [] },
   IOOp.createFile p)

/-- Size reported by os.stat for the config file: the length of the
serialized document (zero exactly when the document is empty). -/
def FS.statSize (fs : FS) (p : String) : Nat :=
  (serializeDoc ((fs.lookupFile p).getD [])).length

/-- Overwrite (or create) the file at a path with new content, as
ConfigParser.write into an open("w") handle does. -/
def FS.writeFile (fs : FS) (p : String) (d : Doc) : FS :=
  { fs with files := assocSet fs.files p d }

/-! ## Python string helpers used by Engine.__init__ and _mainloop -/

/-- Python str.rfind: highest index of the character, or -1 when absent. -/
def pyRfind (s : String) (c : Char) : Int :=
  match (s.data.reverse).findIdx? (fun x => x = c) with
  | some i => (s.data.length : Int) - 1 - (i : Int)
  | none => -1

/-- Python slice s[:i] with a possibly negative index: a negative index
counts from the end and clamps at zero. -/
def pySliceTo (s : String) (i : Int) : String :=
  if 0 ≤ i then ⟨s.data.take i.toNat⟩
  else ⟨s.data.take (s.data.length - (-i).toNat)⟩

/-- Python str.lower restricted to basic latin letters (all characters this
program ever compares are ASCII). -/
def str_lower (s : String) : String := ⟨s.data.map Char.toLower⟩

/-! ## Engine data model -/

/-- The engineconf record (source: a namedtuple used as a mutable record with
fields log_fpath, log_fname, log_level, log_stdio, log_fileio). Fields are
Options because the record starts fully unset and is populated in one step. -/
structure EngineConfig where
  log_fpath : Option String := none
  log_fname : Option String := none
  log_level : Option Nat := none
  log_stdio : Option Bool := none
  log_fileio : Option Bool := none
deriving DecidableEq, Repr

/-- Modelled from the spec: the logger handle returned by
utility.base_util.setup_logger (external capability, not under src/): an
opaque record of the parameters it was created with. -/
structure Logger where
  log_fpath : Option String
  log_fname : String
  log_level : Option Nat
  log_stdio : Option Bool
  log_fileio : Option Bool
deriving DecidableEq, Repr

/-- Modelled from the spec: utility.base_util.setup_logger, the external
logging capability; returns a handle bound to the given parameters. -/
def setup_logger (fpath : Option String) (fname : String) (level : Option Nat)
    (stdio fileio : Option Bool) : Logger :=
  ⟨fpath, fname, level, stdio, fileio⟩

/-- Python str() applied to the value of a possibly-unset namedtuple field
(an unset field holds the field descriptor; its repr stands in here). -/
def pyFormatField (o : Option String) : String :=
  match o with
  | some s => s
  | none => "<field descriptor>"

/-- The Engine object state: the validated flag, the config path, the
engineconf record and the logger slot (source attributes _enable_logger,
gameconf, engineconf, _logger; _init is set False and never read). -/
structure Engine where
  enable_logger : Bool
  init_flag : Bool
  gameconf : Option String
  engineconf : EngineConfig
  logger : Option Logger
deriving DecidableEq, Repr

/-- Engine.get_logger: returns the stored logger handle (None until set). -/
def Engine.get_logger (e : Engine) : Option Logger :=
  e.logger

/-- Engine.set_logger: ensures the log directory exists, then installs a
logger built from engineconf, with the file name formed as
base_name, underscore, current date, ".log". -/
def Engine.set_logger (e : Engine) (today : String) (fs : FS) :
    Engine × FS × List IOOp :=
  let dirRes := fs.create_dir e.engineconf.log_fpath
  let lg := setup_logger e.engineconf.log_fpath
      (pyFormatField e.engineconf.log_fname ++ "_" ++ today ++ ".log")
      e.engineconf.log_level e.engineconf.log_stdio e.engineconf.log_fileio
  ({ e with logger := some lg }, dirRes.1, [dirRes.2])

/-- The sequence of ConfigParser item assignments in Engine.__create_config,
applied to the document read from the (empty) file: create the logger section
and set its keys to the documented defaults, then the engine section. -/
def createConfigDoc (doc0 : Doc) : Doc :=
  let d1 := assocSet doc0 LOGGER_SECTION []
  let d2 := docSetKey d1 LOGGER_SECTION LOGFILE_OPTION LOGFILE_VALUE
  let d3 := docSetKey d2 LOGGER_SECTION LOGDIR_OPTION LOGDIR_VALUE
  let d4 := docSetKey d3 LOGGER_SECTION LOGTOFILE_OPTION LOGTOFILE_VALUE
  let d5 := docSetKey d4 LOGGER_SECTION LOGTOSTDIO_OPTION LOGTOSTDIO_VALUE
  let d6 := docSetKey d5 LOGGER_SECTION ENABLE_DEBUG_OPTION ENABLE_DEBUG_VALUE
  let d7 := assocSet d6 ENGINE_SECTION []
  docSetKey d7 ENGINE_SECTION ENABLE_DEBUG_OPTION ENABLE_DEBUG_VALUE

/-- Engine.__create_config: read the (empty) file into a fresh parser, set
both sections to the documented defaults, write the document back, and, when
logging is enabled, populate engineconf from the same constant values with
level DEBUG. -/
def Engine.create_config (e : Engine) (path : String) (fs : FS) :
    Engine × FS × List IOOp :=
  let d8 := createConfigDoc ((fs.lookupFile path).getD [])
  let fs1 := fs.writeFile path d8
  let e1 :=
    if e.enable_logger then
      { e with engineconf :=
        { e.engineconf with
            log_fname := some LOGFILE_VALUE
            log_fpath := some LOGDIR_VALUE
            log_fileio := some (LOGTOFILE_VALUE == ENABLE)
            log_stdio := some (LOGTOSTDIO_VALUE == ENABLE)
            log_level := some DEBUG } }
    else e
  (e1, fs1, [IOOp.readFile path, IOOp.writeFile path d8])

/-- The engine (or the raised KeyError) produced by Engine.__parse_config
from the parsed document: when logging is enabled the engineconf record is
populated from the logger section, boolean-like values compared against the
literal "enable", and log_level forced to DEBUG; a missing section or key
raises KeyError. -/
def Engine.parse_config_result (e : Engine) (doc : Doc) : Except DMError Engine :=
  if e.enable_logger then
    match docGet doc LOGGER_SECTION LOGFILE_OPTION with
    | none => .error (.keyError LOGFILE_OPTION)
    | some fname =>
      match docGet doc LOGGER_SECTION LOGDIR_OPTION with
      | none => .error (.keyError LOGDIR_OPTION)
      | some fpath =>
        match docGet doc LOGGER_SECTION LOGTOFILE_OPTION with
        | none => .error (.keyError LOGTOFILE_OPTION)
        | some tf =>
          match docGet doc LOGGER_SECTION LOGTOSTDIO_OPTION with
          | none => .error (.keyError LOGTOSTDIO_OPTION)
          | some ts =>
            .ok { e with engineconf :=
              { e.engineconf with
                  log_fname := some fname
                  log_fpath := some fpath
                  log_fileio := some (tf == ENABLE)
                  log_stdio := some (ts == ENABLE)
                  log_level := some DEBUG } }
  else .ok e

/-- Engine.__parse_config: read the file into a fresh parser (the only
file operation of this method) and compute the populated engine. -/
def Engine.parse_config (e : Engine) (path : String) (fs : FS) :
    (Except DMError Engine) × FS × List IOOp :=
  (e.parse_config_result ((fs.lookupFile path).getD []), fs, [IOOp.readFile path])

/-- Lines 57-66 of Engine.__init__: ensure the directory and the file exist,
then seed defaults when the file has size zero, otherwise parse it. -/
def Engine.bootstrap (e : Engine) (path : String) (fs : FS) :
    (Except DMError Engine) × FS × List IOOp :=
  let dirArg := pySliceTo path (pyRfind path sep)
  let r1 := fs.create_dir (some dirArg)
  let r2 := r1.1.create_file path
  let pre := [r1.2, r2.2, IOOp.statFile path]
  if r2.1.statSize path = 0 then
    let r3 := e.create_config path r2.1
    (.ok r3.1, r3.2.1, pre ++ r3.2.2)
  else
    let r3 := e.parse_config path r2.1
    (r3.1, r3.2.1, pre ++ r3.2.2)

/-- Lines 68-72 of Engine.__init__: the logger slot starts as None and, when
the flag is enabled, set_logger runs and a startup line is logged (the log
line itself has no file-system effect in this model). -/
def Engine.finishInit (e : Engine) (today : String) (fs : FS) :
    Engine × FS × List IOOp :=
  let e1 := { e with logger := none }
  if e1.enable_logger then e1.set_logger today fs
  else (e1, fs, [])

/-- The engine state right after validation, before the bootstrap block:
flag stored, _init False, engineconf fully unset, no logger. -/
def initEngine (gameconf : Option String) (el : Bool) : Engine :=
  { enable_logger := el, init_flag := false, gameconf := gameconf,
    engineconf := {}, logger := none }

/-- Engine.__init__: validate enable_logger (type check first, then the
None check — which is unreachable, since None is not a bool), then run the
config bootstrap when a config path is given, then activate the logger when
enabled. Returns the constructed engine or the raised error, together with
the final file system and the trace of file operations performed. -/
def Engine.init (gameconf : Option String) (enable_logger : PyVal)
    (today : String) (fs : FS) : (Except DMError Engine) × FS × List IOOp :=
  if ¬ enable_logger.isBool then
    (.error (.enableLoggerTypeError (ERR_TYPE_fmt "Enable logger" "boolean")), fs, [])
  else if enable_logger = .pyNone then
    (.error (.enableLoggerValueError (ERR_VALUE_fmt "Boolean")), fs, [])
  else
    let e0 := initEngine gameconf enable_logger.asBool
    match gameconf with
    | none =>
      let r := e0.finishInit today fs
      (.ok r.1, r.2.1, r.2.2)
    | some path =>
      let r := e0.bootstrap path fs
      match r.1 with
      | .error err => (.error err, r.2.1, r.2.2)
      | .ok e1 =>
        let r2 := e1.finishInit today r.2.1
        (.ok r2.1, r2.2.1, r.2.2 ++ r2.2.2)

/-! ## The run loop and the shutdown confirmation -/

/-- The exit message passed to sys.exit on confirmed shutdown. -/
def exitMsg : String := "Engine exiting"

/-- The interrupt handler of Engine._mainloop: given the response typed at
the confirmation prompt, either the process exits with a message (some msg)
or control returns to the caller (none). An empty response exits; otherwise
the first character of the lowercased response is compared with 'y'. -/
def Engine.handleInterrupt (choice : String) : Option String :=
  if choice = "" then some exitMsg
  else if (str_lower choice).data.head? = some 'y' then some exitMsg
  else none

/-- One pass of Engine._mainloop, from the interrupt to the handler result;
the source assigns no attribute of self in this method, so the engine
component of the result is the input engine. -/
def Engine.mainloopStep (e : Engine) (choice : String) : Engine × Option String :=
  (e, Engine.handleInterrupt choice)

/-- Engine.mainloop over a stream of interrupt responses: the while-True
loop keeps re-entering _mainloop after every rejected confirmation, and the
process terminates at the first confirming response (none when the supplied
responses are exhausted with the engine still running). -/
def Engine.mainloopRun : List String → Option String
  | [] => none
  | c :: rest =>
    match Engine.handleInterrupt c with
    | some m => some m
    | none => Engine.mainloopRun rest

/-- The document Engine.__create_config writes into a previously empty
file: both sections with the documented default keys and values. -/
def defaultConfigDoc : Doc :=
  [(LOGGER_SECTION,
    [(LOGFILE_OPTION, LOGFILE_VALUE), (LOGDIR_OPTION, LOGDIR_VALUE),
     (LOGTOFILE_OPTION, LOGTOFILE_VALUE), (LOGTOSTDIO_OPTION, LOGTOSTDIO_VALUE),
     (ENABLE_DEBUG_OPTION, ENABLE_DEBUG_VALUE)]),
   (ENGINE_SECTION, [(ENABLE_DEBUG_OPTION, ENABLE_DEBUG_VALUE)])]

/-! ## Helper lemmas -/

theorem assocGet_assocSet_self {α : Type} (l : List (String × α)) (k : String) (v : α) :
    assocGet (assocSet l k v) k = some v := by
  induction l with
  | nil => simp [assocSet, assocGet]
  | cons hd tl ih =>
    obtain ⟨k1, v1⟩ := hd
    by_cases hk : k1 = k
    · simp [assocSet, hk, assocGet]
    · simp [assocSet, hk, assocGet, ih]

theorem FS.files_create_dir (fs : FS) (d : Option String) :
    (fs.create_dir d).1.files = fs.files := by
  cases d with
  | none => rfl
  | some dir =>
    simp only [FS.create_dir]
    split <;> rfl

theorem FS.create_file_of_present (fs : FS) (p : String)
    (h : (fs.lookupFile p).isSome = true) : (fs.create_file p).1 = fs := by
  simp [FS.create_file, h]

theorem FS.lookupFile_create_file (fs : FS) (p : String) :
    (fs.create_file p).1.lookupFile p = some ((fs.lookupFile p).getD []) := by
  simp only [FS.create_file]
  split
  · rename_i h
    obtain ⟨d, hd⟩ := Option.isSome_iff_exists.mp h
    simp [hd]
  · rename_i h
    have hn : fs.lookupFile p = none := by
      cases hl : fs.lookupFile p with
      | none => rfl
      | some d => rw [hl] at h; simp at h
    rw [hn]
    simp only [FS.lookupFile, Option.getD_none]
    exact assocGet_assocSet_self fs.files p []

theorem FS.lookupFile_writeFile_self (fs : FS) (p : String) (d : Doc) :
    (fs.writeFile p d).lookupFile p = some d := by
  simp only [FS.writeFile, FS.lookupFile]
  exact assocGet_assocSet_self fs.files p d

theorem FS.statSize_of_lookup (fs : FS) (p : String) (d : Doc)
    (h : fs.lookupFile p = some d) : fs.statSize p = (serializeDoc d).length := by
  simp [FS.statSize, h]

theorem serializeDoc_length_pos (d : Doc) (h : d ≠ []) :
    0 < (serializeDoc d).length := by
  cases d with
  | nil => exact absurd rfl h
  | cons hd tl =>
    obtain ⟨n, sec⟩ := hd
    simp only [serializeDoc, serializeSection]
    simp only [String.length_append]
    have h1 : 0 < "[".length := by decide
    omega

theorem createConfigDoc_nil : createConfigDoc [] = defaultConfigDoc := by decide

theorem Engine.finishInit_files (e : Engine) (today : String) (fs : FS) :
    ((e.finishInit today fs).2.1).files = fs.files := by
  simp only [Engine.finishInit]
  split
  · simp only [Engine.set_logger]
    exact FS.files_create_dir fs _
  · rfl

theorem Engine.finishInit_engineconf (e : Engine) (today : String) (fs : FS) :
    ((e.finishInit today fs).1).engineconf = e.engineconf := by
  simp only [Engine.finishInit]
  split <;> rfl

theorem Engine.finishInit_logger_of_disabled (e : Engine) (today : String) (fs : FS)
    (h : e.enable_logger = false) : ((e.finishInit today fs).1).logger = none := by
  simp [Engine.finishInit, h]

theorem Engine.finishInit_writes (e : Engine) (today : String) (fs : FS) :
    ((e.finishInit today fs).2.2).filter IOOp.is_write = [] := by
  simp only [Engine.finishInit]
  split
  · simp [Engine.set_logger, FS.create_dir, IOOp.is_write]
  · rfl

/-- The engineconf record produced on the default-seeding path when logging
is enabled. -/
def seededConf : EngineConfig :=
  { log_fpath := some LOGDIR_VALUE
    log_fname := some LOGFILE_VALUE
    log_level := some DEBUG
    log_stdio := some (LOGTOSTDIO_VALUE == ENABLE)
    log_fileio := some (LOGTOFILE_VALUE == ENABLE) }

theorem Engine.bootstrap_seed (e : Engine) (path : String) (fs : FS)
    (hg : (fs.lookupFile path).getD [] = []) :
    e.bootstrap path fs =
      (.ok (if e.enable_logger then { e with engineconf :=
              { e.engineconf with
                  log_fname := some LOGFILE_VALUE
                  log_fpath := some LOGDIR_VALUE
                  log_fileio := some (LOGTOFILE_VALUE == ENABLE)
                  log_stdio := some (LOGTOSTDIO_VALUE == ENABLE)
                  log_level := some DEBUG } }
            else e),
       (((fs.create_dir (some (pySliceTo path (pyRfind path sep)))).1.create_file
           path).1.writeFile path defaultConfigDoc),
       [IOOp.createDir (some (pySliceTo path (pyRfind path sep))),
        IOOp.createFile path, IOOp.statFile path, IOOp.readFile path,
        IOOp.writeFile path defaultConfigDoc]) := by
  have hl1 : ((fs.create_dir (some (pySliceTo path (pyRfind path sep)))).1).lookupFile path
      = fs.lookupFile path := by
    simp only [FS.lookupFile, FS.files_create_dir]
  have hl2 : (((fs.create_dir (some (pySliceTo path (pyRfind path sep)))).1.create_file
      path).1).lookupFile path = some [] := by
    rw [FS.lookupFile_create_file, hl1, hg]
  have hsz : (((fs.create_dir (some (pySliceTo path (pyRfind path sep)))).1.create_file
      path).1).statSize path = 0 := by
    rw [FS.statSize_of_lookup _ _ _ hl2]; rfl
  simp only [Engine.bootstrap, hsz, if_true, Engine.create_config, hl2,
    Option.getD_some, createConfigDoc_nil, List.cons_append, List.nil_append]
  rfl

theorem Engine.bootstrap_parse (e : Engine) (path : String) (fs : FS)
    (doc : Doc) (h : fs.lookupFile path = some doc) (hne : doc ≠ []) :
    e.bootstrap path fs =
      (e.parse_config_result doc,
       (fs.create_dir (some (pySliceTo path (pyRfind path sep)))).1,
       [IOOp.createDir (some (pySliceTo path (pyRfind path sep))),
        IOOp.createFile path, IOOp.statFile path, IOOp.readFile path]) := by
  have hl1 : ((fs.create_dir (some (pySliceTo path (pyRfind path sep)))).1).lookupFile path
      = some doc := by
    simp only [FS.lookupFile, FS.files_create_dir]; exact h
  have hcf : ((fs.create_dir (some (pySliceTo path (pyRfind path sep)))).1.create_file
      path).1 = (fs.create_dir (some (pySliceTo path (pyRfind path sep)))).1 :=
    FS.create_file_of_present _ _ (by rw [hl1]; rfl)
  have hsz : ((fs.create_dir (some (pySliceTo path (pyRfind path sep)))).1).statSize path ≠ 0 := by
    rw [FS.statSize_of_lookup _ _ _ hl1]
    exact Nat.pos_iff_ne_zero.mp (serializeDoc_length_pos doc hne)
  simp only [Engine.bootstrap, hcf, hsz, if_false, Engine.parse_config, hl1,
    Option.getD_some, List.cons_append, List.nil_append]
  rfl

theorem Engine.finishInit_enable_logger (e : Engine) (today : String) (fs : FS) :
    ((e.finishInit today fs).1).enable_logger = e.enable_logger := by
  simp only [Engine.finishInit]
  split <;> rfl

theorem Engine.init_pyBool (path : String) (el : Bool) (today : String) (fs : FS) :
    Engine.init (some path) (.pyBool el) today fs =
      (let r := (initEngine (some path) el).bootstrap path fs
       match r.1 with
       | .error err => (.error err, r.2.1, r.2.2)
       | .ok e1 =>
         let r2 := e1.finishInit today r.2.1
         (.ok r2.1, r2.2.1, r.2.2 ++ r2.2.2)) := by
  rfl

theorem Engine.init_pyBool_none_path (el : Bool) (today : String) (fs : FS) :
    Engine.init none (.pyBool el) today fs =
      (let r := (initEngine none el).finishInit today fs
       (.ok r.1, r.2.1, r.2.2)) := by
  rfl

theorem FS.lookupFile_of_files_eq (fs1 fs2 : FS) (h : fs1.files = fs2.files)
    (p : String) : fs1.lookupFile p = fs2.lookupFile p := by
  simp [FS.lookupFile, h]

theorem Engine.init_seed_char (path : String) (el : Bool) (today : String) (fs : FS)
    (hg : (fs.lookupFile path).getD [] = []) :
    ∃ e fs2 tr, Engine.init (some path) (.pyBool el) today fs = (.ok e, fs2, tr) ∧
      fs2.lookupFile path = some defaultConfigDoc ∧
      e.engineconf = (if el then seededConf else {}) ∧
      e.enable_logger = el := by
  rw [Engine.init_pyBool, Engine.bootstrap_seed _ _ _ hg]
  refine ⟨_, _, _, rfl, ?_, ?_, ?_⟩
  · rw [FS.lookupFile_of_files_eq _ _ (Engine.finishInit_files _ _ _) path]
    exact FS.lookupFile_writeFile_self _ _ _
  · rw [Engine.finishInit_engineconf]
    cases el <;> rfl
  · rw [Engine.finishInit_enable_logger]
    cases el <;> rfl

theorem Engine.init_parse_ok_char (path : String) (today : String) (fs : FS)
    (doc : Doc) (f d tf ts : String)
    (h : fs.lookupFile path = some doc)
    (h1 : docGet doc LOGGER_SECTION LOGFILE_OPTION = some f)
    (h2 : docGet doc LOGGER_SECTION LOGDIR_OPTION = some d)
    (h3 : docGet doc LOGGER_SECTION LOGTOFILE_OPTION = some tf)
    (h4 : docGet doc LOGGER_SECTION LOGTOSTDIO_OPTION = some ts) :
    ∃ e fs2 tr, Engine.init (some path) (.pyBool true) today fs = (.ok e, fs2, tr) ∧
      e.engineconf =
        { log_fpath := some d, log_fname := some f, log_level := some DEBUG,
          log_stdio := some (ts == ENABLE), log_fileio := some (tf == ENABLE) } := by
  have hne : doc ≠ [] := by
    intro hd
    rw [hd] at h1
    simp [docGet, assocGet] at h1
  rw [Engine.init_pyBool, Engine.bootstrap_parse _ _ _ doc h hne]
  have hp : (initEngine (some path) true).parse_config_result doc =
      .ok { initEngine (some path) true with engineconf :=
        { log_fname := some f, log_fpath := some d,
          log_fileio := some (tf == ENABLE), log_stdio := some (ts == ENABLE),
          log_level := some DEBUG } } := by
    simp [Engine.parse_config_result, initEngine, h1, h2, h3, h4]
  simp only [hp]
  refine ⟨_, _, _, rfl, ?_⟩
  rw [Engine.finishInit_engineconf]

theorem Engine.parse_config_result_ok_conf (e : Engine) (doc : Doc) (e1 : Engine)
    (hen : e.enable_logger = true) (hp : e.parse_config_result doc = .ok e1) :
    e1.engineconf.log_level = some DEBUG ∧ e1.enable_logger = e.enable_logger := by
  simp only [Engine.parse_config_result, hen, if_true] at hp
  repeat' split at hp
  all_goals simp_all
  all_goals (rw [← hp]; simp)

theorem Engine.parse_config_result_enable (e : Engine) (doc : Doc) (e1 : Engine)
    (hp : e.parse_config_result doc = .ok e1) : e1.enable_logger = e.enable_logger := by
  by_cases hen : e.enable_logger = true
  · exact (Engine.parse_config_result_ok_conf e doc e1 hen hp).2
  · simp only [Engine.parse_config_result] at hp
    rw [if_neg hen] at hp
    rw [← Except.ok.inj hp]

theorem Engine.bootstrap_ok_enable (e : Engine) (path : String) (fs : FS) (e1 : Engine)
    (h : (e.bootstrap path fs).1 = .ok e1) : e1.enable_logger = e.enable_logger := by
  simp only [Engine.bootstrap] at h
  split at h
  · simp only [Engine.create_config] at h
    rw [← Except.ok.inj h]
    split <;> rfl
  · exact Engine.parse_config_result_enable _ _ _ h

theorem char_toLower_eq_y (c : Char) : Char.toLower c = 'y' ↔ c = 'y' ∨ c = 'Y' := by
  constructor
  · intro h
    unfold Char.toLower at h
    simp only [] at h
    by_cases hr : c.toNat ≥ 65 ∧ c.toNat ≤ 90
    · rw [if_pos hr] at h
      obtain ⟨h1, h2⟩ := hr
      right
      obtain ⟨n, hn⟩ : ∃ n, Char.toNat c = n := ⟨_, rfl⟩
      rw [hn] at h h1 h2
      have h89 : n = 89 := by
        interval_cases n <;> first | rfl | exact absurd h (by decide)
      rw [h89] at hn
      exact Char.ext (UInt32.ext hn)
    · rw [if_neg hr] at h
      exact Or.inl h
  · rintro (rfl | rfl) <;> decide

theorem Engine.bootstrap_ok_level (e : Engine) (path : String) (fs : FS) (e1 : Engine)
    (hen : e.enable_logger = true) (h : (e.bootstrap path fs).1 = .ok e1) :
    e1.engineconf.log_level = some DEBUG := by
  simp only [Engine.bootstrap] at h
  split at h
  · simp only [Engine.create_config, hen, if_true] at h
    rw [← Except.ok.inj h]
  · exact (Engine.parse_config_result_ok_conf _ _ _ hen h).1

/-! ## Claim theorems -/

/-- Claim C1, counterexample: constructing with enable_logger=None raises the
Enable-Logger-Type error, not the Enable-Logger-Value error the claim
announces (and the two errors are distinct), because the type check runs
first and None is not a boolean. -/
theorem C1_counterexample :
    (Engine.init (some "config/game.ini") PyVal.pyNone "2020-05-08" ⟨[], []⟩).1 =
      .error (.enableLoggerTypeError (ERR_TYPE_fmt "Enable logger" "boolean")) ∧
    DMError.enableLoggerTypeError (ERR_TYPE_fmt "Enable logger" "boolean") ≠
      DMError.enableLoggerValueError (ERR_VALUE_fmt "Boolean") :=
  ⟨rfl, by decide⟩

/-- Claim C1 (amended): constructing an Engine with enable_logger=None raises
the Enable-Logger-Type error with no file I/O; the distinct
Enable-Logger-Value branch is unreachable because the type check is performed
first and None is not a boolean. -/
theorem C1_none_raises_type_error (gameconf : Option String) (today : String) (fs : FS) :
    Engine.init gameconf PyVal.pyNone today fs =
      (.error (.enableLoggerTypeError (ERR_TYPE_fmt "Enable logger" "boolean")), fs, []) :=
  rfl

/-- Claim C2: for every non-boolean enable_logger argument, construction
raises the Enable-Logger-Type error, leaves the file system unchanged, and
performs no file operation at all (empty trace). -/
theorem C2_nonbool_type_error_before_io (v : PyVal) (h : v.isBool = false)
    (gameconf : Option String) (today : String) (fs : FS) :
    Engine.init gameconf v today fs =
      (.error (.enableLoggerTypeError (ERR_TYPE_fmt "Enable logger" "boolean")), fs, []) := by
  cases v with
  | pyBool b => simp [PyVal.isBool] at h
  | pyNone => rfl
  | pyStr s => rfl
  | pyInt n => rfl

/-- Witness for C2 at the string "yes" from the spec's example. -/
theorem C2_witness :
    (PyVal.pyStr "yes").isBool = false ∧
    Engine.init (some "config/game.ini") (PyVal.pyStr "yes") "2020-05-08" ⟨[], []⟩ =
      (.error (.enableLoggerTypeError (ERR_TYPE_fmt "Enable logger" "boolean")),
       (⟨[], []⟩ : FS), []) :=
  ⟨rfl, C2_nonbool_type_error_before_io (PyVal.pyStr "yes") rfl
    (some "config/game.ini") "2020-05-08" ⟨[], []⟩⟩

/-- Claim C3: for every path at which the config file is absent or empty,
construction leaves at that path the default document — which serializes to
non-empty bytes and contains both the logger and engine sections with all
the documented default keys and values. -/
theorem C3_bootstrap_seeds_defaults (path : String) (fs : FS) (today : String) (el : Bool)
    (h : fs.lookupFile path = none ∨ fs.lookupFile path = some []) :
    ((Engine.init (some path) (.pyBool el) today fs).2.1).lookupFile path
        = some defaultConfigDoc ∧
    serializeDoc defaultConfigDoc ≠ "" ∧
    (assocGet defaultConfigDoc LOGGER_SECTION).isSome = true ∧
    (assocGet defaultConfigDoc ENGINE_SECTION).isSome = true ∧
    docGet defaultConfigDoc LOGGER_SECTION LOGFILE_OPTION = some LOGFILE_VALUE ∧
    docGet defaultConfigDoc LOGGER_SECTION LOGDIR_OPTION = some LOGDIR_VALUE ∧
    docGet defaultConfigDoc LOGGER_SECTION LOGTOFILE_OPTION = some LOGTOFILE_VALUE ∧
    docGet defaultConfigDoc LOGGER_SECTION LOGTOSTDIO_OPTION = some LOGTOSTDIO_VALUE ∧
    docGet defaultConfigDoc LOGGER_SECTION ENABLE_DEBUG_OPTION = some ENABLE_DEBUG_VALUE ∧
    docGet defaultConfigDoc ENGINE_SECTION ENABLE_DEBUG_OPTION = some ENABLE_DEBUG_VALUE := by
  have hg : (fs.lookupFile path).getD [] = [] := by
    rcases h with h | h <;> simp [h]
  refine ⟨?_, by decide, by decide, by decide, by decide, by decide, by decide,
    by decide, by decide, by decide⟩
  obtain ⟨e, fs2, tr, heq, hlook, -, -⟩ := Engine.init_seed_char path el today fs hg
  rw [heq]
  exact hlook

/-- Witness for C3 on an empty file system. -/
theorem C3_witness :
    ((⟨[], []⟩ : FS).lookupFile "config/game.ini" = none ∨
      (⟨[], []⟩ : FS).lookupFile "config/game.ini" = some []) ∧
    ((Engine.init (some "config/game.ini") (.pyBool false) "2020-05-08"
        ⟨[], []⟩).2.1).lookupFile "config/game.ini" = some defaultConfigDoc :=
  ⟨Or.inl rfl,
   (C3_bootstrap_seeds_defaults "config/game.ini" ⟨[], []⟩ "2020-05-08" false
     (Or.inl rfl)).1⟩

/-- Claim C4: re-running the bootstrap on a non-empty config file preserves
the whole file map, preserves the file's bytes (its serialization), and
performs no write at all (the trace contains no write operation), so the
defaults are never re-seeded. -/
theorem C4_bootstrap_idempotent (path : String) (fs : FS) (today : String) (el : Bool)
    (doc : Doc) (h : fs.lookupFile path = some doc) (hne : doc ≠ []) :
    ((Engine.init (some path) (.pyBool el) today fs).2.1).files = fs.files ∧
    serializeDoc ((((Engine.init (some path) (.pyBool el) today fs).2.1).lookupFile
        path).getD []) = serializeDoc doc ∧
    ((Engine.init (some path) (.pyBool el) today fs).2.2).filter IOOp.is_write = [] := by
  rw [Engine.init_pyBool, Engine.bootstrap_parse _ _ _ doc h hne]
  cases hp : (initEngine (some path) el).parse_config_result doc with
  | error err =>
    simp only [hp]
    refine ⟨FS.files_create_dir fs _, ?_, by simp [IOOp.is_write]⟩
    rw [FS.lookupFile_of_files_eq _ fs (FS.files_create_dir fs _) path, h]
    rfl
  | ok e1 =>
    simp only [hp]
    have hfl : ((e1.finishInit today
        (fs.create_dir (some (pySliceTo path (pyRfind path sep)))).1).2.1).files
        = fs.files := by
      rw [Engine.finishInit_files]
      exact FS.files_create_dir fs _
    refine ⟨hfl, ?_, ?_⟩
    · rw [FS.lookupFile_of_files_eq _ fs hfl path, h]
      rfl
    · rw [List.filter_append, Engine.finishInit_writes]
      simp [IOOp.is_write]

/-- Witness for C4 on the file system produced by a first bootstrap. -/
theorem C4_witness :
    ((⟨["config"], [("config/game.ini", defaultConfigDoc)]⟩ : FS).lookupFile
        "config/game.ini" = some defaultConfigDoc) ∧
    ((Engine.init (some "config/game.ini") (.pyBool false) "2020-05-08"
        ⟨["config"], [("config/game.ini", defaultConfigDoc)]⟩).2.1).files =
      [("config/game.ini", defaultConfigDoc)] ∧
    ((Engine.init (some "config/game.ini") (.pyBool false) "2020-05-08"
        ⟨["config"], [("config/game.ini", defaultConfigDoc)]⟩).2.2).filter
        IOOp.is_write = [] := by
  have h := C4_bootstrap_idempotent "config/game.ini"
    ⟨["config"], [("config/game.ini", defaultConfigDoc)]⟩ "2020-05-08" false
    defaultConfigDoc rfl (by decide)
  exact ⟨rfl, h.1, h.2.2⟩

/-- Claim C5: for every stored config file carrying the logger-section keys,
re-constructing with the same path and enable_logger=true yields an
EngineConfig whose five fields match the stored values (strings verbatim,
boolean-like values through the literal enable encoding), with log_level
forced to DEBUG regardless of any stored level. -/
theorem C5_roundtrip_fidelity (path : String) (fs : FS) (today : String)
    (doc : Doc) (f d tf ts : String)
    (h : fs.lookupFile path = some doc)
    (h1 : docGet doc LOGGER_SECTION LOGFILE_OPTION = some f)
    (h2 : docGet doc LOGGER_SECTION LOGDIR_OPTION = some d)
    (h3 : docGet doc LOGGER_SECTION LOGTOFILE_OPTION = some tf)
    (h4 : docGet doc LOGGER_SECTION LOGTOSTDIO_OPTION = some ts) :
    ∃ e, (Engine.init (some path) (.pyBool true) today fs).1 = .ok e ∧
      e.engineconf.log_fname = some f ∧
      e.engineconf.log_fpath = some d ∧
      e.engineconf.log_fileio = some (tf == ENABLE) ∧
      e.engineconf.log_stdio = some (ts == ENABLE) ∧
      e.engineconf.log_level = some DEBUG := by
  obtain ⟨e, fs2, tr, heq, hconf⟩ :=
    Engine.init_parse_ok_char path today fs doc f d tf ts h h1 h2 h3 h4
  exact ⟨e, by rw [heq], by rw [hconf], by rw [hconf], by rw [hconf],
    by rw [hconf], by rw [hconf]⟩

/-- Witness for C5 on the default document written by a first bootstrap. -/
theorem C5_witness :
    ∃ e, (Engine.init (some "config/game.ini") (.pyBool true) "2020-05-08"
        ⟨["config"], [("config/game.ini", defaultConfigDoc)]⟩).1 = .ok e ∧
      e.engineconf.log_fname = some LOGFILE_VALUE ∧
      e.engineconf.log_fpath = some LOGDIR_VALUE ∧
      e.engineconf.log_fileio = some (LOGTOFILE_VALUE == ENABLE) ∧
      e.engineconf.log_stdio = some (LOGTOSTDIO_VALUE == ENABLE) ∧
      e.engineconf.log_level = some DEBUG :=
  C5_roundtrip_fidelity "config/game.ini"
    ⟨["config"], [("config/game.ini", defaultConfigDoc)]⟩ "2020-05-08"
    defaultConfigDoc LOGFILE_VALUE LOGDIR_VALUE LOGTOFILE_VALUE LOGTOSTDIO_VALUE
    rfl rfl rfl rfl rfl

/-- Claim C6: whenever logging is enabled and construction with a config path
succeeds — on the default-seeding path as well as on the parse path — the
EngineConfig log level is DEBUG. -/
theorem C6_log_level_always_debug (path : String) (fs : FS) (today : String)
    (e : Engine) (fs2 : FS) (tr : List IOOp)
    (h : Engine.init (some path) (.pyBool true) today fs = (.ok e, fs2, tr)) :
    e.engineconf.log_level = some DEBUG := by
  rw [Engine.init_pyBool] at h
  cases hb : ((initEngine (some path) true).bootstrap path fs).1 with
  | error err =>
    simp only [hb] at h
    simp at h
  | ok e1 =>
    simp only [hb] at h
    have he : e = (e1.finishInit today
        ((initEngine (some path) true).bootstrap path fs).2.1).1 := by
      have h2 := congrArg Prod.fst h
      simpa using h2.symm
    rw [he, Engine.finishInit_engineconf]
    exact Engine.bootstrap_ok_level _ _ _ _ rfl hb

/-- Witness for C6 on an empty file system (seeding path). -/
theorem C6_witness :
    ∃ e fs2 tr, Engine.init (some "config/game.ini") (.pyBool true) "2020-05-08"
        (⟨[], []⟩ : FS) = (.ok e, fs2, tr) ∧ e.engineconf.log_level = some DEBUG := by
  refine ⟨_, _, _, rfl, ?_⟩
  exact C6_log_level_always_debug "config/game.ini" ⟨[], []⟩ "2020-05-08" _ _ _ rfl

/-- Claim C7: in the shutdown confirmation, an empty response or any
response whose first character is y or Y terminates the process with the
exit message; every response with any other first character makes the
handler return control, and the run loop resumes — a subsequent interrupt is
handled by the same loop on the remaining responses. -/
theorem C7_shutdown_confirmation (choice : String) (rest : List String) :
    (choice = "" → Engine.mainloopRun (choice :: rest) = some exitMsg) ∧
    (∀ c cs, choice.data = c :: cs → (c = 'y' ∨ c = 'Y') →
        Engine.mainloopRun (choice :: rest) = some exitMsg) ∧
    (∀ c cs, choice.data = c :: cs → c ≠ 'y' → c ≠ 'Y' →
        Engine.handleInterrupt choice = none ∧
        Engine.mainloopRun (choice :: rest) = Engine.mainloopRun rest) := by
  refine ⟨?_, ?_, ?_⟩
  · rintro rfl
    rfl
  · intro c cs hd hy
    have hne : choice ≠ "" := by
      intro hc
      rw [hc] at hd
      exact List.noConfusion hd
    have hh : (str_lower choice).data.head? = some (Char.toLower c) := by
      simp [str_lower, hd]
    have hy2 : Char.toLower c = 'y' := (char_toLower_eq_y c).mpr hy
    simp [Engine.mainloopRun, Engine.handleInterrupt, hne, hh, hy2]
  · intro c cs hd hny hnY
    have hne : choice ≠ "" := by
      intro hc
      rw [hc] at hd
      exact List.noConfusion hd
    have hh : (str_lower choice).data.head? = some (Char.toLower c) := by
      simp [str_lower, hd]
    have hy2 : Char.toLower c ≠ 'y' := by
      intro hc
      rcases (char_toLower_eq_y c).mp hc with h | h
      · exact hny h
      · exact hnY h
    constructor
    · simp [Engine.handleInterrupt, hne, hh, hy2]
    · simp [Engine.mainloopRun, Engine.handleInterrupt, hne, hh, hy2]

/-- Witness for C7: the rejecting response "no" hands control back to the
loop, and the confirming response "Yes" at the next interrupt terminates. -/
theorem C7_witness :
    (Engine.handleInterrupt "no" = none ∧
      Engine.mainloopRun ["no", "Yes"] = Engine.mainloopRun ["Yes"]) ∧
    Engine.mainloopRun ["Yes"] = some exitMsg :=
  ⟨(C7_shutdown_confirmation "no" ["Yes"]).2.2 'n' ['o'] rfl (by decide) (by decide),
   (C7_shutdown_confirmation "Yes" []).2.1 'Y' ['e', 's'] rfl (Or.inr rfl)⟩

/-- Claim C8, counterexample: with gameconf=None but enable_logger=true the
construction still performs a directory-creation call (from the logger
activation step, on the unset log path field), so its file-operation trace
is not empty. -/
theorem C8_counterexample :
    (Engine.init none (.pyBool true) "2020-05-08" ⟨[], []⟩).2.2 =
      [IOOp.createDir none] ∧
    ([IOOp.createDir none] : List IOOp) ≠ [] :=
  ⟨rfl, by decide⟩

/-- Claim C8 (amended): constructing with gameconf=None and
enable_logger=false performs zero file I/O (unchanged file system, empty
trace) and loads no configuration values; with enable_logger=true the config
store is still skipped and no configuration values are loaded, but the
logger-activation step issues one directory-creation call on the unset log
path. -/
theorem C8_headless_no_config_io (today : String) (fs : FS) :
    Engine.init none (.pyBool false) today fs = (.ok (initEngine none false), fs, []) ∧
    (initEngine none false).engineconf = EngineConfig.mk none none none none none ∧
    (Engine.init none (.pyBool true) today fs).2.2 = [IOOp.createDir none] ∧
    (Engine.init none (.pyBool true) today fs).2.1 = fs ∧
    (∀ e, (Engine.init none (.pyBool true) today fs).1 = .ok e →
        e.engineconf = EngineConfig.mk none none none none none) := by
  refine ⟨rfl, rfl, rfl, rfl, ?_⟩
  intro e h
  have h2 : Except.ok (((initEngine none true).finishInit today fs).1) = .ok e := h
  rw [← Except.ok.inj h2]
  rfl

/-- Witness for C8 on the empty file system. -/
theorem C8_witness :
    Engine.init none (.pyBool false) "2020-05-08" (⟨[], []⟩ : FS) =
      (.ok (initEngine none false), (⟨[], []⟩ : FS), []) ∧
    (∀ e, (Engine.init none (.pyBool true) "2020-05-08" (⟨[], []⟩ : FS)).1 = .ok e →
        e.engineconf = EngineConfig.mk none none none none none) :=
  ⟨(C8_headless_no_config_io "2020-05-08" ⟨[], []⟩).1,
   (C8_headless_no_config_io "2020-05-08" ⟨[], []⟩).2.2.2.2⟩

/-- Claim C9: for both boolean-like config keys (log_to_file, log_to_stdio),
parsing maps the literal string "enable" to true and every other stored
string (including "disable") to false. -/
theorem C9_boolean_like_keys (path : String) (fs : FS) (today : String)
    (doc : Doc) (f d tf ts : String)
    (h : fs.lookupFile path = some doc)
    (h1 : docGet doc LOGGER_SECTION LOGFILE_OPTION = some f)
    (h2 : docGet doc LOGGER_SECTION LOGDIR_OPTION = some d)
    (h3 : docGet doc LOGGER_SECTION LOGTOFILE_OPTION = some tf)
    (h4 : docGet doc LOGGER_SECTION LOGTOSTDIO_OPTION = some ts) :
    ∃ e, (Engine.init (some path) (.pyBool true) today fs).1 = .ok e ∧
      (tf = ENABLE → e.engineconf.log_fileio = some true) ∧
      (tf ≠ ENABLE → e.engineconf.log_fileio = some false) ∧
      (ts = ENABLE → e.engineconf.log_stdio = some true) ∧
      (ts ≠ ENABLE → e.engineconf.log_stdio = some false) := by
  obtain ⟨e, fs2, tr, heq, hconf⟩ :=
    Engine.init_parse_ok_char path today fs doc f d tf ts h h1 h2 h3 h4
  refine ⟨e, by rw [heq], ?_, ?_, ?_, ?_⟩ <;> intro hv <;> rw [hconf] <;> simp [hv]

/-- Witness for C9 on a stored file holding "enable" for log_to_file and
"disable" for log_to_stdio. -/
theorem C9_witness :
    ∃ e, (Engine.init (some "config/game.ini") (.pyBool true) "2020-05-08"
        (⟨["config"],
          [("config/game.ini",
            [(LOGGER_SECTION,
              [(LOGFILE_OPTION, "engine"), (LOGDIR_OPTION, "./logs"),
               (LOGTOFILE_OPTION, "enable"), (LOGTOSTDIO_OPTION, "disable")])])]⟩ : FS)).1
        = .ok e ∧
      e.engineconf.log_fileio = some true ∧
      e.engineconf.log_stdio = some false := by
  obtain ⟨e, hok, hf1, -, -, hs2⟩ := C9_boolean_like_keys "config/game.ini"
    ⟨["config"],
      [("config/game.ini",
        [(LOGGER_SECTION,
          [(LOGFILE_OPTION, "engine"), (LOGDIR_OPTION, "./logs"),
           (LOGTOFILE_OPTION, "enable"), (LOGTOSTDIO_OPTION, "disable")])])]⟩
    "2020-05-08" _ "engine" "./logs" "enable" "disable" rfl rfl rfl rfl rfl
  exact ⟨e, hok, hf1 rfl, hs2 (by decide)⟩

/-- Claim C10: for every Engine constructed with enable_logger=false,
get_logger returns None; the run loop never changes that (no logger is
created implicitly), and only an explicit set_logger call installs a
logger. -/
theorem C10_no_implicit_logger (gameconf : Option String) (today : String) (fs : FS)
    (e : Engine) (fs2 : FS) (tr : List IOOp)
    (h : Engine.init gameconf (.pyBool false) today fs = (.ok e, fs2, tr)) :
    e.get_logger = none ∧
    (∀ choice, ((e.mainloopStep choice).1).get_logger = none) ∧
    (∀ today2 fs3, (((e.set_logger today2 fs3).1).get_logger).isSome = true) := by
  have hl : e.logger = none := by
    cases gameconf with
    | none =>
      have h1 : Except.ok (initEngine none false) = .ok e := congrArg Prod.fst h
      rw [← Except.ok.inj h1]
      rfl
    | some path =>
      rw [Engine.init_pyBool] at h
      cases hb : ((initEngine (some path) false).bootstrap path fs).1 with
      | error err =>
        simp only [hb] at h
        simp at h
      | ok e1 =>
        simp only [hb] at h
        have he : e = (e1.finishInit today
            ((initEngine (some path) false).bootstrap path fs).2.1).1 := by
          have h2 := congrArg Prod.fst h
          simpa using h2.symm
        have hen : e1.enable_logger = false := Engine.bootstrap_ok_enable _ _ _ _ hb
        rw [he]
        exact Engine.finishInit_logger_of_disabled e1 today _ hen
  refine ⟨hl, fun choice => hl, fun today2 fs3 => ?_⟩
  simp [Engine.set_logger, Engine.get_logger]

/-- Witness for C10 in the headless construction. -/
theorem C10_witness :
    (initEngine none false).get_logger = none ∧
    (∀ choice, (((initEngine none false).mainloopStep choice).1).get_logger = none) ∧
    (∀ today2 fs3,
        ((((initEngine none false).set_logger today2 fs3).1).get_logger).isSome = true) :=
  C10_no_implicit_logger none "2020-05-08" ⟨[], []⟩ (initEngine none false)
    ⟨[], []⟩ [] rfl

end DM
